import Mathlib

/-!
Verification of the session layer of the neo4j-go-driver core
(`session_with_context.go`) and of the Bolt v5 connect hint handling,
as a shallow embedding in Lean 4.  External collaborators (pool, router,
wire protocol) are represented by oracle inputs; all session-local logic
is translated from the Go source.
-/

namespace Neo4j

/-- Error taxonomy of the driver, as far as the session layer distinguishes
errors: usage errors, connectivity errors, server-reported errors
(code + message) and the retry-exhaustion aggregate error
(`TransactionExecutionLimit`, carrying the observed errors and the inferred
causes). -/
inductive DriverError where
  | usageError (msg : String)
  | connectivityError (msg : String)
  | neo4jError (code : String) (msg : String)
  | transactionExecutionLimit (errs : List DriverError) (causes : List String)
  deriving Repr

/-- Predicate used to state claims about the shape of a returned error. -/
def DriverError.isUsageError : DriverError → Bool
  | .usageError _ => true
  | _ => false

/-- Predicate used to state claims about the shape of a returned error. -/
def DriverError.isTransactionExecutionLimit : DriverError → Bool
  | .transactionExecutionLimit _ _ => true
  | _ => false

/-- A pooled connection as the session sees it: an identity and the value
its `Bookmark()` accessor currently returns (the latest bookmark the server
emitted on this connection, empty string when none). -/
structure Conn where
  id : Nat
  bookmark : String
  deriving Repr, DecidableEq

/-- TransactionConfig from the Go source: a timeout (Go `time.Duration`,
an `int64`) and opaque metadata. -/
structure TransactionConfig where
  timeout : Int
  metadata : List (String × String)
  deriving Repr, DecidableEq

/-- Go `math.MinInt` on a 64-bit platform, the sentinel meaning
"timeout not set". -/
def minInt : Int := -(2 ^ 63)

/-- defaultTransactionConfig from the Go source:
`TransactionConfig{Timeout: math.MinInt, Metadata: nil}`. -/
def defaultTransactionConfig : TransactionConfig :=
  { timeout := minInt, metadata := [] }

/-- The usage error validateTransactionConfig builds for a negative
non-sentinel timeout, from the Go source. -/
def negativeTimeoutError (t : Int) : DriverError :=
  .usageError ("Negative transaction timeouts are not allowed. Given: " ++ toString t)

/-- validateTransactionConfig from the Go source:
`if config.Timeout != math.MinInt && config.Timeout < 0 { return UsageError }`. -/
def validateTransactionConfig (config : TransactionConfig) : Option DriverError :=
  if config.timeout ≠ minInt ∧ config.timeout < 0 then
    some (negativeTimeoutError config.timeout)
  else
    none

/-- Application of the configurer callbacks to the default config, as in the
Go source: `config := defaultTransactionConfig(); for _, c := range
configurers { c(&config) }`. -/
def applyConfigurers (configurers : List (TransactionConfig → TransactionConfig)) :
    TransactionConfig :=
  configurers.foldl (fun c f => f c) defaultTransactionConfig

/-- The mutable state of sessionWithContext that the session operations read
and write: the bookmark set, the (possibly still unresolved) database name,
the impersonated user, the home-database resolution flag, the pending
explicit and auto-commit transactions (represented by their connections),
and the effective fetch size. -/
structure SessionState where
  bookmarks : List String
  databaseName : String
  impersonatedUser : String
  resolveHomeDb : Bool
  explicitTx : Option Conn
  autocommitTx : Option Conn
  fetchSize : Int
  deriving Repr, DecidableEq

/-- Driver-level Config fields the session consults. -/
structure Config where
  fetchSize : Int
  maxTransactionRetryTime : Int
  connectionAcquisitionTimeout : Int
  maxConnectionPoolSize : Int
  deriving Repr, DecidableEq

/-- SessionConfig fields the session constructor consults. -/
structure SessionConfig where
  bookmarks : List String
  databaseName : String
  impersonatedUser : String
  fetchSize : Int
  deriving Repr, DecidableEq

/-- cleanupBookmarks from the Go source: first scan for an empty string, and
only when one is present rebuild the list keeping the non-empty entries. -/
def cleanupBookmarks (bookmarks : List String) : List String :=
  let hasBad := bookmarks.any (fun b => b.length == 0)
  if !hasBad then
    bookmarks
  else
    bookmarks.filter (fun b => decide (0 < b.length))

/-- newSessionWithContext from the Go source: the fetch size falls back to
the driver config when the session config holds `FetchDefault` (0), the
bookmarks are cleaned, `resolveHomeDb` is set exactly when no database name
was configured, and no transaction is pending. -/
def newSessionWithContext (config : Config) (sessConfig : SessionConfig) : SessionState :=
  let fetchSize := if sessConfig.fetchSize ≠ 0 then sessConfig.fetchSize else config.fetchSize
  { bookmarks := cleanupBookmarks sessConfig.bookmarks
    databaseName := sessConfig.databaseName
    impersonatedUser := sessConfig.impersonatedUser
    resolveHomeDb := sessConfig.databaseName == ""
    explicitTx := none
    autocommitTx := none
    fetchSize := fetchSize }

/-- retrieveBookmarks from the Go source: a nil connection leaves the
session untouched; otherwise, when `conn.Bookmark()` is non-empty the
session bookmark set becomes the singleton of that bookmark, and when it is
empty nothing changes. -/
def retrieveBookmarks (s : SessionState) (conn : Option Conn) : SessionState :=
  match conn with
  | none => s
  | some c =>
    if 0 < c.bookmark.length then
      { s with bookmarks := [c.bookmark] }
    else
      s

/-- LastBookmarks from the Go source: when an auto-commit transaction is
pending its connection bookmark is first retrieved into the session, then
the session bookmark set is reported.  Returns the updated state together
with the reported bookmark list. -/
def LastBookmarks (s : SessionState) : SessionState × List String :=
  let s1 :=
    match s.autocommitTx with
    | some c => retrieveBookmarks s (some c)
    | none => s
  (s1, s1.bookmarks)

/-- Finalization of a pending auto-commit transaction.  The closing hook
itself comes from the Go source (the `onClosed` closure installed by `Run`:
`retrieveBookmarks(conn); pool.Return(ctx, conn); autocommitTx = nil`).
Modelled from the spec: the `autocommitTransaction.done` wrapper that
triggers this hook lives in `transaction.go`, which is not under src/; per
spec section 4.3 step 2 a pending auto-commit transaction is closed
(discarded) and its connection returned.  The returned list collects the
connections handed back to the pool. -/
def autocommitDone (s : SessionState) : SessionState × List Conn :=
  match s.autocommitTx with
  | none => (s, [])
  | some c => ({ retrieveBookmarks s (some c) with autocommitTx := none }, [c])

/-- The `onClosed` closure installed by BeginTransaction in the Go source:
on explicit-transaction close, `retrieveBookmarks(conn);
pool.Return(ctx, conn); explicitTx = nil`. -/
def explicitTxOnClosed (s : SessionState) (conn : Conn) : SessionState × List Conn :=
  ({ retrieveBookmarks s (some conn) with explicitTx := none }, [conn])

/-- resolveHomeDatabase from the Go source, with the router call
`GetNameOfDefaultDatabase` given as an oracle result.  Returns the outcome,
the new state and the number of router calls performed: when the session is
already resolved nothing happens; on a router error the error propagates and
the session stays unresolved; on success the returned name is cached as the
database name and the session is marked resolved. -/
def resolveHomeDatabase (s : SessionState) (routerDb : Except DriverError String) :
    Except DriverError Unit × SessionState × Nat :=
  if !s.resolveHomeDb then
    (.ok (), s, 0)
  else
    match routerDb with
    | .error e => (.error e, s, 1)
    | .ok defaultDb =>
      (.ok (), { s with databaseName := defaultDb, resolveHomeDb := false }, 1)

/-- The parameters the session passes to `pool.Borrow`: the context deadline
it imposed (none when no deadline was attached) and the `wait` flag. -/
structure BorrowCall where
  deadline : Option Int
  wait : Bool
  deriving Repr, DecidableEq

/-- Oracle results for the external calls getConnection performs: the
router's default-database answer, the router's server list, the pool borrow
result, and whether the borrowed connection implements DatabaseSelector. -/
structure ConnEnv where
  routerDb : Except DriverError String
  servers : Except DriverError (List String)
  borrow : Except DriverError Conn
  multiDb : Bool

/-- Result of getConnection: the outcome, the session state (home-database
resolution may have updated it), the connections returned to the pool along
the way, the borrow calls performed (with their parameters) and the number
of router default-database calls. -/
structure GetConnResult where
  result : Except DriverError Conn
  state : SessionState
  returned : List Conn
  borrowCalls : List BorrowCall
  routerDbCalls : Nat
  deriving Repr

/-- getConnection from the Go source: a context deadline equal to
`ConnectionAcquisitionTimeout` is attached only when that timeout is
positive; the home database is resolved; the candidate servers are fetched;
the borrow is invoked with `wait = (ConnectionAcquisitionTimeout != 0)`;
finally, when a database is selected, a connection that does not support
multi-database is returned to the pool and a usage error is raised. -/
def getConnection (config : Config) (s : SessionState) (env : ConnEnv) : GetConnResult :=
  let deadline : Option Int :=
    if 0 < config.connectionAcquisitionTimeout then
      some config.connectionAcquisitionTimeout
    else
      none
  match resolveHomeDatabase s env.routerDb with
  | (.error e, s1, n) => ⟨.error e, s1, [], [], n⟩
  | (.ok _, s1, n) =>
    match env.servers with
    | .error e => ⟨.error e, s1, [], [], n⟩
    | .ok _ =>
      let call : BorrowCall :=
        ⟨deadline, decide (config.connectionAcquisitionTimeout ≠ 0)⟩
      match env.borrow with
      | .error e => ⟨.error e, s1, [], [call], n⟩
      | .ok conn =>
        if s1.databaseName ≠ "" then
          if !env.multiDb then
            ⟨.error (.usageError "Database does not support multi-database"),
              s1, [conn], [call], n⟩
          else
            ⟨.ok conn, s1, [], [call], n⟩
        else
          ⟨.ok conn, s1, [], [call], n⟩

/-- Result of a session operation: the outcome, the final session state, the
connections returned to the pool, the borrow calls performed and the number
of router default-database calls. -/
structure OpResult (α : Type) where
  result : Except DriverError α
  state : SessionState
  returned : List Conn
  borrowCalls : List BorrowCall
  routerDbCalls : Nat
  deriving Repr

/-- BeginTransaction from the Go source: guard against a pending explicit
transaction; finalize a pending auto-commit transaction; apply the
configurers and validate; acquire a connection; send BEGIN (oracle
`txBegin`), returning the connection on failure; on success record the
pending explicit transaction. -/
def BeginTransaction (config : Config) (s : SessionState)
    (configurers : List (TransactionConfig → TransactionConfig))
    (env : ConnEnv) (txBegin : Except DriverError Nat) : OpResult Conn :=
  match s.explicitTx with
  | some _ =>
    ⟨.error (.usageError "Session already has a pending transaction"), s, [], [], 0⟩
  | none =>
    let s1 := (autocommitDone s).1
    let ret1 := (autocommitDone s).2
    let txConfig := applyConfigurers configurers
    match validateTransactionConfig txConfig with
    | some e => ⟨.error e, s1, ret1, [], 0⟩
    | none =>
      let g := getConnection config s1 env
      match g.result with
      | .error e => ⟨.error e, g.state, ret1 ++ g.returned, g.borrowCalls, g.routerDbCalls⟩
      | .ok conn =>
        match txBegin with
        | .error e =>
          ⟨.error e, g.state, ret1 ++ g.returned ++ [conn], g.borrowCalls, g.routerDbCalls⟩
        | .ok _ =>
          ⟨.ok conn, { g.state with explicitTx := some conn },
            ret1 ++ g.returned, g.borrowCalls, g.routerDbCalls⟩

/-- Run (auto-commit) from the Go source: guard against a pending explicit
transaction; finalize a pending auto-commit transaction; apply the
configurers and validate; acquire a connection; dispatch RUN (oracle
`runStream`), returning the connection on failure; on success record the
pending auto-commit transaction. -/
def Run (config : Config) (s : SessionState)
    (configurers : List (TransactionConfig → TransactionConfig))
    (env : ConnEnv) (runStream : Except DriverError Nat) : OpResult Nat :=
  match s.explicitTx with
  | some _ =>
    ⟨.error (.usageError "Trying to run auto-commit transaction while in explicit transaction"),
      s, [], [], 0⟩
  | none =>
    let s1 := (autocommitDone s).1
    let ret1 := (autocommitDone s).2
    let txConfig := applyConfigurers configurers
    match validateTransactionConfig txConfig with
    | some e => ⟨.error e, s1, ret1, [], 0⟩
    | none =>
      let g := getConnection config s1 env
      match g.result with
      | .error e => ⟨.error e, g.state, ret1 ++ g.returned, g.borrowCalls, g.routerDbCalls⟩
      | .ok conn =>
        match runStream with
        | .error e =>
          ⟨.error e, g.state, ret1 ++ g.returned ++ [conn], g.borrowCalls, g.routerDbCalls⟩
        | .ok stream =>
          ⟨.ok stream, { g.state with autocommitTx := some conn },
            ret1 ++ g.returned, g.borrowCalls, g.routerDbCalls⟩

/-- wrapError from the Go source wraps pool/connectivity/server errors into
the public error types while preserving their identity as far as the session
layer distinguishes them; `errorutil` is not under src/, so Modelled from
the spec: "the session ... wraps connectivity/usage errors with context" —
the error kind is preserved, which is all the claims consult. -/
def wrapError (e : DriverError) : DriverError := e

/-- Modelled from the spec: the retry coordinator state of package
`neo4j/internal/retry` (not under src/).  `errs` is the list of observed
errors, `causes` the inferred causes, `lastErr` the last observed error and
`lastErrWasRetryable` its classification (spec section 4.4). -/
structure RetryState where
  errs : List DriverError
  causes : List String
  lastErr : Option DriverError
  lastErrWasRetryable : Bool
  deriving Repr

/-- The retry state at the start of runRetriable: no error observed yet. -/
def initRetryState : RetryState :=
  { errs := [], causes := [], lastErr := none, lastErrWasRetryable := false }

/-- Modelled from the spec: `retry.State.OnFailure` (not under src/)
records the observed error, its inferred cause when the retry logic
detected one, and whether the failure class is retryable (spec section 4.4:
"classify into Retryable-Transient, ... Fatal, ..."). -/
def OnFailure (st : RetryState) (e : DriverError) (retryable : Bool)
    (cause : Option String) : RetryState :=
  { errs := st.errs ++ [e]
    causes := st.causes ++ cause.toList
    lastErr := some e
    lastErrWasRetryable := retryable }

/-- Modelled from the spec: `retry.State.Continue` (not under src/), the
loop condition of runRetriable.  Spec section 4.4: "The loop terminates when
either the deadline is exceeded or the last error is non-retryable"; before
any attempt the loop runs. -/
def Continue (st : RetryState) (deadlineExceeded : Bool) : Bool :=
  match st.lastErr with
  | none => true
  | some _ => st.lastErrWasRetryable && !deadlineExceeded

/-- Oracle outcome of one attempt of executeTransactionFunction: which of
the four external calls failed (connection acquisition, BEGIN, the user
work function, COMMIT) with the failure classification the retry package
would compute, or commit success.  On `commitOk` the carried connection
already exposes (via `bookmark`) the bookmark the server emitted on the
COMMIT success. -/
inductive AttemptOutcome where
  | connFail (e : DriverError) (retryable : Bool) (cause : Option String)
  | beginFail (conn : Conn) (e : DriverError) (retryable : Bool) (cause : Option String)
  | workFail (conn : Conn) (e : DriverError) (retryable : Bool) (cause : Option String)
  | commitFail (conn : Conn) (e : DriverError) (retryable : Bool) (cause : Option String)
  | commitOk (conn : Conn) (value : String)

/-- executeTransactionFunction from the Go source: on any failure the retry
state records it via OnFailure and the loop is asked to try again (the
borrowed connection, when there is one, is returned to the pool by the
deferred Return); on commit success the session bookmarks are retrieved
from the connection and the work result is delivered.  Returns
`((tryAgain, result), state, retryState, returnedConns)`. -/
def executeTransactionFunction (s : SessionState) (st : RetryState)
    (outcome : AttemptOutcome) :
    (Bool × Option String) × SessionState × RetryState × List Conn :=
  match outcome with
  | .connFail e retryable cause => ((true, none), s, OnFailure st e retryable cause, [])
  | .beginFail conn e retryable cause =>
    ((true, none), s, OnFailure st e retryable cause, [conn])
  | .workFail conn e retryable cause =>
    ((true, none), s, OnFailure st e retryable cause, [conn])
  | .commitFail conn e retryable cause =>
    ((true, none), s, OnFailure st e retryable cause, [conn])
  | .commitOk conn value =>
    ((false, some value), retrieveBookmarks s (some conn), st, [conn])

/-- One scripted iteration of the retry loop: whether the retry deadline is
exceeded at the `Continue` check guarding it, and the attempt outcome if the
iteration runs. -/
structure LoopStep where
  deadlineExceeded : Bool
  outcome : AttemptOutcome

/-- The error computation after the loop in runRetriable, from the Go
source: when the last error was retryable (the loop stopped on the
deadline), a TransactionExecutionLimit built from the observed errors and
causes; otherwise the wrapped last error. -/
def finishError (st : RetryState) : DriverError :=
  if st.lastErrWasRetryable then
    .transactionExecutionLimit st.errs st.causes
  else
    match st.lastErr with
    | some e => wrapError e
    | none => .usageError "retry loop exited without running"

/-- Result of the retry loop: the outcome, the final session state, the
final retry state, the connections returned to the pool, and — when the
loop exited because `Continue` was false — the deadline flag observed at
that exit (`none` means the loop exited by success or the script ran dry). -/
structure LoopResult where
  result : Except DriverError String
  state : SessionState
  retryState : RetryState
  returned : List Conn
  exitDeadline : Option Bool
  deriving Repr

/-- The `for state.Continue()` loop of runRetriable from the Go source,
driven by a script of attempt outcomes: while `Continue` holds, run
executeTransactionFunction; a `tryAgain` result continues the loop, a final
result returns it; when `Continue` fails, the post-loop error is built from
the retry state. -/
def retryLoop (s : SessionState) (st : RetryState) : List LoopStep → LoopResult
  | [] => ⟨.error (finishError st), s, st, [], none⟩
  | step :: rest =>
    if Continue st step.deadlineExceeded then
      match executeTransactionFunction s st step.outcome with
      | ((true, _), s1, st1, ret1) =>
        let r := retryLoop s1 st1 rest
        ⟨r.result, r.state, r.retryState, ret1 ++ r.returned, r.exitDeadline⟩
      | ((false, value), s1, st1, ret1) =>
        ⟨.ok (value.getD ""), s1, st1, ret1, none⟩
    else
      ⟨.error (finishError st), s, st, [], some step.deadlineExceeded⟩

/-- Access mode of a session operation; it selects the router call
(Readers vs Writers) and which routing entry a dead connection invalidates,
both external to the session state. -/
inductive AccessMode where
  | read
  | write
  deriving Repr, DecidableEq

/-- runRetriable from the Go source (the common body of ExecuteRead and
ExecuteWrite): guard against a pending explicit transaction; finalize a
pending auto-commit transaction; apply the configurers and validate; then
drive the retry loop. -/
def runRetriable (s : SessionState) (_mode : AccessMode)
    (configurers : List (TransactionConfig → TransactionConfig))
    (script : List LoopStep) : LoopResult :=
  match s.explicitTx with
  | some _ =>
    ⟨.error (.usageError "Session already has a pending transaction"),
      s, initRetryState, [], none⟩
  | none =>
    let s1 := (autocommitDone s).1
    let ret1 := (autocommitDone s).2
    let txConfig := applyConfigurers configurers
    match validateTransactionConfig txConfig with
    | some e => ⟨.error e, s1, initRetryState, ret1, none⟩
    | none =>
      let r := retryLoop s1 initRetryState script
      ⟨r.result, r.state, r.retryState, ret1 ++ r.returned, r.exitDeadline⟩

/-- ExecuteRead from the Go source: runRetriable in read mode. -/
def ExecuteRead (s : SessionState)
    (configurers : List (TransactionConfig → TransactionConfig))
    (script : List LoopStep) : LoopResult :=
  runRetriable s .read configurers script

/-- ExecuteWrite from the Go source: runRetriable in write mode. -/
def ExecuteWrite (s : SessionState)
    (configurers : List (TransactionConfig → TransactionConfig))
    (script : List LoopStep) : LoopResult :=
  runRetriable s .write configurers script

/-- Shape of the server hint `connection.recv_timeout_seconds` in the HELLO
SUCCESS metadata: an integer, a float, a string, as observed by the bolt5
tests under src/ (values 42, 4.2, "42", -42). -/
inductive HintValue where
  | intVal (n : Int)
  | floatVal
  | strVal (s : String)
  deriving Repr, DecidableEq

/-- Modelled from the spec: the HELLO hint handling of bolt5 `Connect`
(`bolt5.go` is not under src/; only its test is).  Spec section 4.2.1:
"extract ... the hint `connection.recv_timeout_seconds` (accept only
positive integers; ignore all other shapes and retain the default `-1`)".
The result is the connection read timeout in seconds; `-1` means disabled. -/
def connReadTimeoutSeconds (hint : Option HintValue) : Int :=
  match hint with
  | some (.intVal n) => if 0 < n then n else -1
  | _ => -1

/-! Concrete fixtures used by witnesses and counterexamples. -/

/-- A connection whose server-side bookmark is "bm". -/
def connB : Conn := ⟨1, "bm"⟩

/-- A connection with no bookmark yet. -/
def connN : Conn := ⟨2, ""⟩

/-- A session with no pending transaction and a resolved database. -/
def s0 : SessionState :=
  ⟨["init"], "neo4j", "", false, none, none, 1000⟩

/-- A session with a pending explicit transaction. -/
def sExp : SessionState := { s0 with explicitTx := some connN }

/-- A session with a pending auto-commit transaction on `connB`. -/
def sAuto : SessionState := { s0 with autocommitTx := some connB }

/-- A freshly created session that still has to resolve its home database. -/
def sUnres : SessionState := { s0 with databaseName := "", resolveHomeDb := true }

/-- A driver config with a positive connection acquisition timeout. -/
def cfg0 : Config := ⟨1000, 30, 60, 100⟩

/-- The same driver config with connection acquisition timeout 0. -/
def cfgZero : Config := { cfg0 with connectionAcquisitionTimeout := 0 }

/-- A connection environment in which every external call succeeds. -/
def env0 : ConnEnv := ⟨.ok "neo4j", .ok ["server1"], .ok connN, true⟩

/-! Helper lemmas. -/

/-- cleanupBookmarks is extensionally the filter keeping non-empty strings. -/
theorem cleanupBookmarks_eq_filter (l : List String) :
    cleanupBookmarks l = l.filter (fun b => decide (0 < b.length)) := by
  unfold cleanupBookmarks
  cases h : l.any (fun b => b.length == 0) with
  | true => simp [h]
  | false =>
    simp only [h, Bool.not_false, if_pos]
    symm
    rw [List.filter_eq_self]
    intro a ha
    have := List.any_eq_false.mp h a ha
    simp only [beq_iff_eq] at this
    simpa using Nat.pos_of_ne_zero this

/-! Claim theorems. -/

/-- C9: for every bookmark list in the session configuration, the new
session's initial bookmark set is that list with every empty string removed,
preserving the relative order of the remaining entries (`List.filter` keeps
order). -/
theorem c9_bookmarks_filtered (config : Config) (sessConfig : SessionConfig) :
    (newSessionWithContext config sessConfig).bookmarks
      = sessConfig.bookmarks.filter (fun b => decide (0 < b.length)) := by
  simp [newSessionWithContext, cleanupBookmarks_eq_filter]

/-- C2: on every connection return path (retrieveBookmarks itself, the
explicit-transaction close hook, the auto-commit finalization, and the
managed-transaction commit), a non-empty connection bookmark replaces the
session bookmark set with exactly that singleton, an empty bookmark leaves
it unchanged, and a nil connection leaves the whole session unchanged. -/
theorem c2_bookmark_replacement_on_return :
    (∀ s : SessionState, retrieveBookmarks s none = s)
    ∧ (∀ (s : SessionState) (c : Conn),
        retrieveBookmarks s (some c)
          = if 0 < c.bookmark.length then { s with bookmarks := [c.bookmark] } else s)
    ∧ (∀ (s : SessionState) (c : Conn),
        (explicitTxOnClosed s c).1.bookmarks
          = if 0 < c.bookmark.length then [c.bookmark] else s.bookmarks)
    ∧ (∀ (s : SessionState) (c : Conn), s.autocommitTx = some c →
        (autocommitDone s).1.bookmarks
          = if 0 < c.bookmark.length then [c.bookmark] else s.bookmarks)
    ∧ (∀ (s : SessionState) (st : RetryState) (c : Conn) (v : String),
        (executeTransactionFunction s st (.commitOk c v)).2.1.bookmarks
          = if 0 < c.bookmark.length then [c.bookmark] else s.bookmarks) := by
  refine ⟨fun s => rfl, fun s c => rfl, ?_, ?_, ?_⟩
  · intro s c
    simp only [explicitTxOnClosed, retrieveBookmarks]
    split <;> rfl
  · intro s c h
    simp only [autocommitDone, h, retrieveBookmarks]
    split <;> rfl
  · intro s st c v
    simp only [executeTransactionFunction, retrieveBookmarks]
    split <;> rfl

/-- C2 witness: finalizing the pending auto-commit transaction of `sAuto`
replaces the bookmark set with the singleton of its connection bookmark. -/
theorem c2_witness : (autocommitDone sAuto).1.bookmarks = ["bm"] :=
  c2_bookmark_replacement_on_return.2.2.2.1 sAuto connB rfl

/-- C6: transaction-config validation fails with the negative-timeout
UsageError exactly when the timeout is negative and not the sentinel
`math.MinInt`; the sentinel and all non-negative timeouts are accepted; and
every operation (BeginTransaction, Run, runRetriable — the body of
ExecuteRead and ExecuteWrite) surfaces the validation error as its result. -/
theorem c6_validate_transaction_config :
    (∀ tc : TransactionConfig,
        validateTransactionConfig tc = some (negativeTimeoutError tc.timeout)
          ↔ (tc.timeout ≠ minInt ∧ tc.timeout < 0))
    ∧ (∀ tc : TransactionConfig,
        validateTransactionConfig tc = none ↔ (tc.timeout = minInt ∨ 0 ≤ tc.timeout))
    ∧ (∀ t : Int, (negativeTimeoutError t).isUsageError = true)
    ∧ (∀ (config : Config) (s : SessionState)
        (configurers : List (TransactionConfig → TransactionConfig)) (env : ConnEnv)
        (txBegin runStream : Except DriverError Nat) (mode : AccessMode)
        (script : List LoopStep) (e : DriverError),
        s.explicitTx = none →
        validateTransactionConfig (applyConfigurers configurers) = some e →
        (BeginTransaction config s configurers env txBegin).result = .error e
        ∧ (Run config s configurers env runStream).result = .error e
        ∧ (runRetriable s mode configurers script).result = .error e) := by
  refine ⟨?_, ?_, fun t => rfl, ?_⟩
  · intro tc
    by_cases h : tc.timeout ≠ minInt ∧ tc.timeout < 0
    · simp [validateTransactionConfig, h]
    · simp [validateTransactionConfig, h]
  · intro tc
    by_cases h : tc.timeout ≠ minInt ∧ tc.timeout < 0
    · obtain ⟨h1, h2⟩ := h
      simp only [validateTransactionConfig, if_pos (And.intro h1 h2)]
      constructor
      · intro hc
        exact absurd hc (by simp)
      · intro hc
        exfalso
        rcases hc with hc | hc
        · exact h1 hc
        · exact absurd h2 (not_lt.mpr hc)
    · simp only [validateTransactionConfig, if_neg h]
      constructor
      · intro _
        by_cases he : tc.timeout = minInt
        · exact Or.inl he
        · right
          by_contra hlt
          exact h ⟨he, by omega⟩
      · intro _
        trivial
  · intro config s configurers env txBegin runStream mode script e hexp hv
    refine ⟨?_, ?_, ?_⟩ <;>
      simp [BeginTransaction, Run, runRetriable, hexp, hv]

/-- C6 witness: a configurer setting timeout -7 on a session with no pending
transaction makes Run return the negative-timeout UsageError. -/
theorem c6_witness :
    (Run cfg0 s0 [fun tc => { tc with timeout := -7 }] env0 (.ok 7)).result
      = .error (negativeTimeoutError (-7)) :=
  (c6_validate_transaction_config.2.2.2 cfg0 s0 [fun tc => { tc with timeout := -7 }]
    env0 (.ok 7) (.ok 7) .read [] (negativeTimeoutError (-7)) rfl rfl).2.1

/-- C7: a session created without a database name starts unresolved and a
session created with one starts resolved; an unresolved session's
resolution calls the router exactly once, and on success caches the name
and marks the session resolved; a resolved session never calls the router
and is left unchanged — in particular the state after a successful
resolution performs no further router call. -/
theorem c7_home_database_resolution :
    (∀ (config : Config) (sessConfig : SessionConfig),
        (newSessionWithContext config sessConfig).resolveHomeDb
          = (sessConfig.databaseName == ""))
    ∧ (∀ (s : SessionState) (name : String), s.resolveHomeDb = true →
        resolveHomeDatabase s (.ok name)
          = (.ok (), { s with databaseName := name, resolveHomeDb := false }, 1))
    ∧ (∀ (s : SessionState) (r : Except DriverError String), s.resolveHomeDb = false →
        resolveHomeDatabase s r = (.ok (), s, 0))
    ∧ (∀ (s : SessionState) (name : String) (r : Except DriverError String),
        s.resolveHomeDb = true →
        resolveHomeDatabase (resolveHomeDatabase s (.ok name)).2.1 r
          = (.ok (), (resolveHomeDatabase s (.ok name)).2.1, 0))
    ∧ (∀ (config : Config) (sessConfig : SessionConfig) (r : Except DriverError String),
        sessConfig.databaseName ≠ "" →
        resolveHomeDatabase (newSessionWithContext config sessConfig) r
          = (.ok (), newSessionWithContext config sessConfig, 0)) := by
  refine ⟨fun config sessConfig => rfl, ?_, ?_, ?_, ?_⟩
  · intro s name h
    simp [resolveHomeDatabase, h]
  · intro s r h
    simp [resolveHomeDatabase, h]
  · intro s name r h
    simp [resolveHomeDatabase, h]
  · intro config sessConfig r h
    simp [resolveHomeDatabase, newSessionWithContext, h]

/-- C7 witness: an unresolved session resolves through the router answer
"home", caching the name, clearing the flag and calling the router once. -/
theorem c7_witness :
    resolveHomeDatabase sUnres (.ok "home")
      = (.ok (), { sUnres with databaseName := "home", resolveHomeDb := false }, 1) :=
  c7_home_database_resolution.2.1 sUnres "home" rfl

/-- C8: the connection read timeout derived from the HELLO hint
`connection.recv_timeout_seconds` equals the hint value (in seconds) for a
positive integer hint, and stays at the disabled default -1 for a zero or
negative integer, a float, a string, or an absent hint — matching the four
bolt5 test vectors 42, 4.2, "42" and -42 from src. -/
theorem c8_recv_timeout_hint :
    (∀ n : Int, 0 < n → connReadTimeoutSeconds (some (.intVal n)) = n)
    ∧ (∀ n : Int, n ≤ 0 → connReadTimeoutSeconds (some (.intVal n)) = -1)
    ∧ (∀ s : String, connReadTimeoutSeconds (some (.strVal s)) = -1)
    ∧ connReadTimeoutSeconds (some .floatVal) = -1
    ∧ connReadTimeoutSeconds none = -1
    ∧ connReadTimeoutSeconds (some (.intVal 42)) = 42
    ∧ connReadTimeoutSeconds (some (.intVal (-42))) = -1
    ∧ connReadTimeoutSeconds (some (.strVal "42")) = -1 := by
  refine ⟨?_, ?_, fun s => rfl, rfl, rfl, rfl, rfl, rfl⟩
  · intro n h
    simp [connReadTimeoutSeconds, h]
  · intro n h
    simp [connReadTimeoutSeconds, not_lt.mpr h]

/-- C8 witness: the positive integer hint 42 yields a 42 second read
timeout. -/
theorem c8_witness : connReadTimeoutSeconds (some (.intVal 42)) = 42 :=
  c8_recv_timeout_hint.1 42 (by decide)

/-- C1: on a session holding a pending explicit transaction, every one of
BeginTransaction, Run, ExecuteRead and ExecuteWrite fails with a UsageError
and leaves the session state — bookmark set, pending transactions, database
name — completely unchanged, returns no connection to the pool, and calls
neither the pool nor the router. -/
theorem c1_pending_explicit_tx_rejects_ops (config : Config) (s : SessionState) (c : Conn)
    (configurers : List (TransactionConfig → TransactionConfig)) (env : ConnEnv)
    (txBegin runStream : Except DriverError Nat) (script : List LoopStep)
    (h : s.explicitTx = some c) :
    BeginTransaction config s configurers env txBegin
      = ⟨.error (.usageError "Session already has a pending transaction"), s, [], [], 0⟩
    ∧ Run config s configurers env runStream
      = ⟨.error (.usageError "Trying to run auto-commit transaction while in explicit transaction"),
          s, [], [], 0⟩
    ∧ ExecuteRead s configurers script
      = ⟨.error (.usageError "Session already has a pending transaction"),
          s, initRetryState, [], none⟩
    ∧ ExecuteWrite s configurers script
      = ⟨.error (.usageError "Session already has a pending transaction"),
          s, initRetryState, [], none⟩ := by
  refine ⟨?_, ?_, ?_, ?_⟩ <;>
    simp [BeginTransaction, Run, ExecuteRead, ExecuteWrite, runRetriable, h]

/-- C1 witness: on the session `sExp`, which has a pending explicit
transaction, Run fails with the usage error and leaves the state intact. -/
theorem c1_witness :
    Run cfg0 sExp [] env0 (.ok 7)
      = ⟨.error (.usageError "Trying to run auto-commit transaction while in explicit transaction"),
          sExp, [], [], 0⟩ :=
  (c1_pending_explicit_tx_rejects_ops cfg0 sExp connN [] env0 (.ok 7) (.ok 7) [] rfl).2.1

/-- C10: with a pending auto-commit transaction and no explicit transaction,
an operation invoked with a configurer yielding a negative non-sentinel
timeout still finalizes the pending auto-commit transaction — its connection
is returned to the pool and its bookmark retrieved into the session — before
the validation UsageError is returned; the error path therefore does not
preserve the pending auto-commit transaction. -/
theorem c10_autocommit_finalized_before_validation_error
    (config : Config) (s : SessionState) (c : Conn)
    (configurers : List (TransactionConfig → TransactionConfig)) (env : ConnEnv)
    (txBegin runStream : Except DriverError Nat) (mode : AccessMode) (script : List LoopStep)
    (hexp : s.explicitTx = none) (hac : s.autocommitTx = some c)
    (h1 : (applyConfigurers configurers).timeout ≠ minInt)
    (h2 : (applyConfigurers configurers).timeout < 0) :
    BeginTransaction config s configurers env txBegin
      = ⟨.error (negativeTimeoutError (applyConfigurers configurers).timeout),
          { retrieveBookmarks s (some c) with autocommitTx := none }, [c], [], 0⟩
    ∧ Run config s configurers env runStream
      = ⟨.error (negativeTimeoutError (applyConfigurers configurers).timeout),
          { retrieveBookmarks s (some c) with autocommitTx := none }, [c], [], 0⟩
    ∧ runRetriable s mode configurers script
      = ⟨.error (negativeTimeoutError (applyConfigurers configurers).timeout),
          { retrieveBookmarks s (some c) with autocommitTx := none },
          initRetryState, [c], none⟩ := by
  have hv : validateTransactionConfig (applyConfigurers configurers)
      = some (negativeTimeoutError (applyConfigurers configurers).timeout) := by
    simp [validateTransactionConfig, h1, h2]
  refine ⟨?_, ?_, ?_⟩ <;>
    simp [BeginTransaction, Run, runRetriable, autocommitDone, hexp, hac, hv]

/-- C10 witness: on `sAuto` (pending auto-commit on `connB`), Run with a
configurer setting timeout -5 returns the validation UsageError while the
auto-commit connection has been returned and its bookmark retrieved. -/
theorem c10_witness :
    Run cfg0 sAuto [fun tc => { tc with timeout := -5 }] env0 (.ok 7)
      = ⟨.error (negativeTimeoutError (-5)),
          { retrieveBookmarks sAuto (some connB) with autocommitTx := none },
          [connB], [], 0⟩ :=
  (c10_autocommit_finalized_before_validation_error cfg0 sAuto connB
    [fun tc => { tc with timeout := -5 }] env0 (.ok 7) (.ok 7) .read []
    rfl rfl (by decide) (by decide)).2.1

/-- C3: LastBookmarks first flushes the pending auto-commit bookmark by
reading that connection's current bookmark into the session; after a
successful managed commit, an auto-commit completion or an explicit
transaction close on which the server emitted a (non-empty) bookmark, it
reports exactly that bookmark; after a failed attempt (begin, work or
commit failure) the session, hence its bookmark set, is unchanged. -/
theorem c3_last_bookmarks :
    (∀ (s : SessionState) (c : Conn), s.autocommitTx = some c → 0 < c.bookmark.length →
        (LastBookmarks s).2 = [c.bookmark])
    ∧ (∀ (s : SessionState) (st : RetryState) (c : Conn) (v : String),
        s.autocommitTx = none → 0 < c.bookmark.length →
        (LastBookmarks (executeTransactionFunction s st (.commitOk c v)).2.1).2 = [c.bookmark])
    ∧ (∀ (s : SessionState) (c : Conn), s.autocommitTx = some c → 0 < c.bookmark.length →
        (LastBookmarks (autocommitDone s).1).2 = [c.bookmark])
    ∧ (∀ (s : SessionState) (c : Conn), s.autocommitTx = none → 0 < c.bookmark.length →
        (LastBookmarks (explicitTxOnClosed s c).1).2 = [c.bookmark])
    ∧ (∀ (s : SessionState) (st : RetryState) (c : Conn) (e : DriverError)
        (r : Bool) (cause : Option String),
        (executeTransactionFunction s st (.beginFail c e r cause)).2.1 = s
        ∧ (executeTransactionFunction s st (.workFail c e r cause)).2.1 = s
        ∧ (executeTransactionFunction s st (.commitFail c e r cause)).2.1 = s) := by
  refine ⟨?_, ?_, ?_, ?_, ?_⟩
  · intro s c hac hb
    simp [LastBookmarks, hac, retrieveBookmarks, hb]
  · intro s st c v hac hb
    simp [LastBookmarks, executeTransactionFunction, retrieveBookmarks, hac, hb]
  · intro s c hac hb
    simp [LastBookmarks, autocommitDone, hac, retrieveBookmarks, hb]
  · intro s c hac hb
    simp [LastBookmarks, explicitTxOnClosed, retrieveBookmarks, hac, hb]
  · intro s st c e r cause
    exact ⟨rfl, rfl, rfl⟩

/-- C3 witness: on `sAuto`, whose pending auto-commit connection carries the
bookmark "bm", LastBookmarks reports exactly ["bm"]. -/
theorem c3_witness : (LastBookmarks sAuto).2 = ["bm"] :=
  c3_last_bookmarks.1 sAuto connB rfl (by decide)

/-- Shape of the borrow calls getConnection can perform: none (an earlier
step failed), or exactly one with the deadline attached only for a positive
acquisition timeout and the wait flag set to `timeout != 0`. -/
theorem getConnection_borrowCalls_shape (config : Config) (s : SessionState) (env : ConnEnv) :
    (getConnection config s env).borrowCalls = []
    ∨ (getConnection config s env).borrowCalls
        = [⟨if 0 < config.connectionAcquisitionTimeout then
              some config.connectionAcquisitionTimeout
            else none,
            decide (config.connectionAcquisitionTimeout ≠ 0)⟩] := by
  unfold getConnection
  rcases hres : resolveHomeDatabase s env.routerDb with ⟨r1, s1, n1⟩
  cases r1 with
  | error e =>
    left
    simp [hres]
  | ok u =>
    cases hsrv : env.servers with
    | error e =>
      left
      simp [hres, hsrv]
    | ok l =>
      cases hbor : env.borrow with
      | error e =>
        right
        simp [hres, hsrv, hbor]
      | ok conn =>
        right
        by_cases hdb : s1.databaseName ≠ ""
        · by_cases hm : env.multiDb <;> simp [hres, hsrv, hbor, hdb, hm]
        · simp [hres, hsrv, hbor, hdb]

/-- C5 counterexample: with `ConnectionAcquisitionTimeout = 0` the borrow is
performed with no deadline but with the wait flag false — the pool is told
NOT to wait for a connection to become available, contradicting the claim
that the borrow waits until a connection is available. -/
theorem c5_counterexample :
    (getConnection cfgZero s0 env0).borrowCalls = [⟨none, false⟩]
    ∧ ((getConnection cfgZero s0 env0).borrowCalls.all (fun c => c.wait)) = false := by
  exact ⟨rfl, rfl⟩

/-- C5 (amended): whenever getConnection reaches the pool borrow, it
performs exactly one borrow; with acquisition timeout 0 that borrow carries
no deadline and the wait flag false (non-blocking), and with a positive
timeout it carries a deadline equal to the timeout and the wait flag true. -/
theorem c5_borrow_parameters (config : Config) (s : SessionState) (env : ConnEnv)
    (h : (getConnection config s env).borrowCalls ≠ []) :
    (config.connectionAcquisitionTimeout = 0 →
        (getConnection config s env).borrowCalls = [⟨none, false⟩])
    ∧ (0 < config.connectionAcquisitionTimeout →
        (getConnection config s env).borrowCalls
          = [⟨some config.connectionAcquisitionTimeout, true⟩]) := by
  rcases getConnection_borrowCalls_shape config s env with hb | hb
  · exact absurd hb h
  · constructor
    · intro h0
      rw [hb, h0]
      norm_num
    · intro hpos
      have hne : config.connectionAcquisitionTimeout ≠ 0 := by omega
      rw [hb]
      simp [if_pos hpos, hne]

/-- C5 witness: with the positive acquisition timeout 60 the single borrow
carries deadline 60 and the wait flag true. -/
theorem c5_witness :
    (getConnection cfg0 s0 env0).borrowCalls = [⟨some 60, true⟩] :=
  (c5_borrow_parameters cfg0 s0 env0 (by decide)).2 (by decide)

/-- Exit shape of the retry loop: when the loop stops because its `Continue`
check failed, the last error was non-retryable or the deadline was exceeded,
and the returned error is the TransactionExecutionLimit aggregate exactly
when the last error was retryable, the wrapped last error otherwise. -/
theorem retryLoop_exit_aux (script : List LoopStep) :
    ∀ (s : SessionState) (st : RetryState) (d : Bool),
      (retryLoop s st script).exitDeadline = some d →
      (((retryLoop s st script).retryState.lastErrWasRetryable = false ∨ d = true)
      ∧ ((retryLoop s st script).retryState.lastErrWasRetryable = true →
          (retryLoop s st script).result
            = .error (.transactionExecutionLimit (retryLoop s st script).retryState.errs
                (retryLoop s st script).retryState.causes))
      ∧ (∀ e, (retryLoop s st script).retryState.lastErr = some e →
          (retryLoop s st script).retryState.lastErrWasRetryable = false →
          (retryLoop s st script).result = .error (wrapError e))) := by
  induction script with
  | nil =>
    intro s st d h
    simp [retryLoop] at h
  | cons step rest ih =>
    intro s st d h
    obtain ⟨dex, outcome⟩ := step
    cases hc : Continue st dex with
    | true =>
      cases outcome with
      | connFail e r cause =>
        have hred : retryLoop s st (⟨dex, .connFail e r cause⟩ :: rest)
            = ⟨(retryLoop s (OnFailure st e r cause) rest).result,
               (retryLoop s (OnFailure st e r cause) rest).state,
               (retryLoop s (OnFailure st e r cause) rest).retryState,
               (retryLoop s (OnFailure st e r cause) rest).returned,
               (retryLoop s (OnFailure st e r cause) rest).exitDeadline⟩ := by
          simp [retryLoop, hc, executeTransactionFunction]
        rw [hred] at h ⊢
        exact ih s (OnFailure st e r cause) d h
      | beginFail conn e r cause =>
        have hred : retryLoop s st (⟨dex, .beginFail conn e r cause⟩ :: rest)
            = ⟨(retryLoop s (OnFailure st e r cause) rest).result,
               (retryLoop s (OnFailure st e r cause) rest).state,
               (retryLoop s (OnFailure st e r cause) rest).retryState,
               [conn] ++ (retryLoop s (OnFailure st e r cause) rest).returned,
               (retryLoop s (OnFailure st e r cause) rest).exitDeadline⟩ := by
          simp [retryLoop, hc, executeTransactionFunction]
        rw [hred] at h ⊢
        exact ih s (OnFailure st e r cause) d h
      | workFail conn e r cause =>
        have hred : retryLoop s st (⟨dex, .workFail conn e r cause⟩ :: rest)
            = ⟨(retryLoop s (OnFailure st e r cause) rest).result,
               (retryLoop s (OnFailure st e r cause) rest).state,
               (retryLoop s (OnFailure st e r cause) rest).retryState,
               [conn] ++ (retryLoop s (OnFailure st e r cause) rest).returned,
               (retryLoop s (OnFailure st e r cause) rest).exitDeadline⟩ := by
          simp [retryLoop, hc, executeTransactionFunction]
        rw [hred] at h ⊢
        exact ih s (OnFailure st e r cause) d h
      | commitFail conn e r cause =>
        have hred : retryLoop s st (⟨dex, .commitFail conn e r cause⟩ :: rest)
            = ⟨(retryLoop s (OnFailure st e r cause) rest).result,
               (retryLoop s (OnFailure st e r cause) rest).state,
               (retryLoop s (OnFailure st e r cause) rest).retryState,
               [conn] ++ (retryLoop s (OnFailure st e r cause) rest).returned,
               (retryLoop s (OnFailure st e r cause) rest).exitDeadline⟩ := by
          simp [retryLoop, hc, executeTransactionFunction]
        rw [hred] at h ⊢
        exact ih s (OnFailure st e r cause) d h
      | commitOk conn v =>
        simp [retryLoop, hc, executeTransactionFunction] at h
    | false =>
      have hred : retryLoop s st (⟨dex, outcome⟩ :: rest)
          = ⟨.error (finishError st), s, st, [], some dex⟩ := by
        simp [retryLoop, hc]
      rw [hred] at h ⊢
      have hd : dex = d := Option.some.inj h
      subst hd
      refine ⟨?_, ?_, ?_⟩
      · cases hl : st.lastErr with
        | none => simp [Continue, hl] at hc
        | some e0 =>
          cases hr : st.lastErrWasRetryable with
          | false => exact Or.inl rfl
          | true =>
            right
            simp [Continue, hl, hr] at hc
            exact hc
      · intro hr
        have hr' : st.lastErrWasRetryable = true := hr
        simp [finishError, hr']
      · intro e hl hr
        have hl' : st.lastErr = some e := hl
        have hr' : st.lastErrWasRetryable = false := hr
        simp [finishError, hr', hl', wrapError]

/-- C4 (amended): the ExecuteRead/ExecuteWrite retry loop exits through its
guard only when the deadline is exceeded or the last error is
non-retryable; when the last error was retryable (the deadline ran out),
the returned error is a TransactionExecutionLimit whose body carries the
observed errors and their inferred causes; when the last error was
non-retryable the returned error is that (wrapped) error, even when earlier
retries occurred. -/
theorem c4_retry_termination (s : SessionState) (mode : AccessMode)
    (configurers : List (TransactionConfig → TransactionConfig))
    (script : List LoopStep) (d : Bool)
    (h : (runRetriable s mode configurers script).exitDeadline = some d) :
    ((runRetriable s mode configurers script).retryState.lastErrWasRetryable = false ∨ d = true)
    ∧ ((runRetriable s mode configurers script).retryState.lastErrWasRetryable = true →
        (runRetriable s mode configurers script).result
          = .error (.transactionExecutionLimit
              (runRetriable s mode configurers script).retryState.errs
              (runRetriable s mode configurers script).retryState.causes))
    ∧ (∀ e, (runRetriable s mode configurers script).retryState.lastErr = some e →
        (runRetriable s mode configurers script).retryState.lastErrWasRetryable = false →
        (runRetriable s mode configurers script).result = .error (wrapError e)) := by
  cases hexp : s.explicitTx with
  | some c => simp [runRetriable, hexp] at h
  | none =>
    cases hv : validateTransactionConfig (applyConfigurers configurers) with
    | some e => simp [runRetriable, hexp, hv] at h
    | none =>
      have hred : runRetriable s mode configurers script
          = ⟨(retryLoop (autocommitDone s).1 initRetryState script).result,
             (retryLoop (autocommitDone s).1 initRetryState script).state,
             (retryLoop (autocommitDone s).1 initRetryState script).retryState,
             (autocommitDone s).2
               ++ (retryLoop (autocommitDone s).1 initRetryState script).returned,
             (retryLoop (autocommitDone s).1 initRetryState script).exitDeadline⟩ := by
        simp [runRetriable, hexp, hv]
      rw [hred] at h ⊢
      exact retryLoop_exit_aux script (autocommitDone s).1 initRetryState d h

/-- A script on which the first attempt fails with a retryable transient
error and the deadline is exceeded at the next loop guard. -/
def c4ScriptW : List LoopStep :=
  [⟨false, .workFail connN (.neo4jError "Neo.TransientError.General.X" "t") true none⟩,
   ⟨true, .workFail connN (.neo4jError "Neo.TransientError.General.X" "t") true none⟩]

/-- C4 witness: when the loop stops on the deadline after a retryable
failure, the returned error is the TransactionExecutionLimit carrying the
observed error. -/
theorem c4_witness :
    (runRetriable s0 .read [] c4ScriptW).result
      = .error (.transactionExecutionLimit
          [.neo4jError "Neo.TransientError.General.X" "t"] []) := by
  have h := c4_retry_termination s0 .read [] c4ScriptW true rfl
  exact h.2.1 rfl

/-- A script with a retryable failure followed by a non-retryable one: a
retry occurred, yet the loop then stops on the non-retryable error. -/
def c4ScriptX : List LoopStep :=
  [⟨false, .workFail connN (.neo4jError "Neo.TransientError.General.X" "t") true none⟩,
   ⟨false, .workFail connN (.neo4jError "Neo.ClientError.Statement.SyntaxError" "s") false none⟩,
   ⟨false, .workFail connN (.neo4jError "Neo.TransientError.General.X" "t") true none⟩]

/-- C4 counterexample: two attempts were made (a retry occurred — two errors
were observed), yet the returned error is the wrapped last (non-retryable)
error and not a TransactionExecutionLimit, refuting the claim that whenever
retries occurred the returned error is a TransactionExecutionLimit. -/
theorem c4_counterexample :
    (runRetriable s0 .read [] c4ScriptX).result
      = .error (.neo4jError "Neo.ClientError.Statement.SyntaxError" "s")
    ∧ (runRetriable s0 .read [] c4ScriptX).retryState.errs.length = 2
    ∧ (match (runRetriable s0 .read [] c4ScriptX).result with
        | .error err => err.isTransactionExecutionLimit
        | .ok _ => true) = false :=
  ⟨rfl, rfl, rfl⟩

end Neo4j
